import Mathlib

/-!
Shallow embedding of the cfn-sphere cloudformation connector
(`src/main/python/cfn_sphere/connector/cloudformation.py`) and proofs about
its stack-creation orchestration, completion-detection loop, event
classification, and template loading.

Modelling conventions:
* Python strings that are only compared by value are Lean `String`s.
* Where the source compares strings with Python `is` (object identity), a
  string is modelled as `PyStr`: its character content plus an object
  identity tag.  `is` compares the tags.
* External collaborators (the boto connection, the filesystem, the json
  library) are function parameters returning `Except`, so that raising an
  exception is an `Except.error` result.
* Wall-clock time is discrete: `time.time()` advances only via
  `time.sleep(10)`, which adds 10 time units; fetching and processing events
  take no time.  The event stream visible at a given moment is a function of
  elapsed time.
* Logging is modelled only where a claim mentions it (the rejection log in
  `create_stack`); other log lines are pure no-ops.  The one exception is the
  `ValueError` handler of `_fs_get_template`, whose log-message *formatting*
  itself raises (see `fs_get_template`), which is control flow, not logging.
-/

namespace CfnSphere

/-- Python string object, modelled as its character content (`val`) together
with an object identity tag (`addr`).  CPython's `is` operator compares object
identity, never content: two distinct string objects with equal content are
not `is`-equal. -/
structure PyStr where
  val : String
  addr : Nat
deriving DecidableEq

/-- Python `is` applied to two string objects: object identity. -/
def pyIs (a b : PyStr) : Bool := a.addr == b.addr

/-- Python `str.endswith`: the argument is a suffix of the receiver. -/
def pyEndsWith (s suf : String) : Bool := List.isSuffixOf suf.data s.data

/-- Python `str.startswith`: the argument is a prefix of the receiver. -/
def pyStartsWith (s p : String) : Bool := List.isPrefixOf p.data s.data

/-- Python `str.lower`, character by character. -/
def pyLower (s : String) : String := String.mk (s.data.map Char.toLower)

/-- The string literal `"AWS::CloudFormation::Stack"` appearing in
`wait_to_complete` (line 111 of the source).  As a compile-time constant of
the module it is one fixed object, given identity tag 0 here.  Strings parsed
out of provider API responses at runtime are freshly allocated objects, so
they carry identity tags different from 0 even when their content equals the
literal's content. -/
def stackSentinelLiteral : PyStr := { val := "AWS::CloudFormation::Stack", addr := 0 }

/-- boto `StackEvent`, restricted to the fields `wait_to_complete` reads.
`resource_type` is a `PyStr` because the source compares it with `is`. -/
structure StackEvent where
  event_id : String
  logical_resource_id : String
  resource_type : PyStr
  resource_status : String
  resource_status_reason : String
deriving DecidableEq

/-- Result of classifying one event, one constructor per arm of the
`if`/`elif` chain in `wait_to_complete` (source lines 111-127). -/
inductive EventSignal where
  | stackCreateComplete
  | resourceCreateComplete
  | resourceCreateFailed
  | rollbackInProgress
  | rollbackComplete
  | rollbackFailed
  | other
deriving DecidableEq

/-- The event classifier: the `if`/`elif` chain of `wait_to_complete`
(source lines 111-127), in source order.  Note the first condition is
`event.resource_type is "AWS::CloudFormation::Stack" and
event.resource_status.endswith("CREATE_COMPLETE")` — an object-identity test,
embedded via `pyIs`. -/
def classifyEvent (e : StackEvent) : EventSignal :=
  if pyIs e.resource_type stackSentinelLiteral && pyEndsWith e.resource_status "CREATE_COMPLETE" then
    EventSignal.stackCreateComplete
  else if pyEndsWith e.resource_status "CREATE_COMPLETE" then
    EventSignal.resourceCreateComplete
  else if pyEndsWith e.resource_status "CREATE_FAILED" then
    EventSignal.resourceCreateFailed
  else if pyEndsWith e.resource_status "ROLLBACK_IN_PROGRESS" then
    EventSignal.rollbackInProgress
  else if pyEndsWith e.resource_status "ROLLBACK_COMPLETE" then
    EventSignal.rollbackComplete
  else if pyEndsWith e.resource_status "ROLLBACK_FAILED" then
    EventSignal.rollbackFailed
  else
    EventSignal.other

/-- Signals on which the loop body executes a `return` statement
(source lines 113, 122, 125). -/
def isTerminal : EventSignal → Bool
  | EventSignal.stackCreateComplete => true
  | EventSignal.rollbackComplete => true
  | EventSignal.rollbackFailed => true
  | _ => false

/-- Which `return` the inner `for` loop executed: `return True` (line 113) or
`return False` (lines 122 and 125). -/
inductive LoopExit where
  | succeeded
  | failed
deriving DecidableEq

/-- The inner `for` loop of `wait_to_complete` (source lines 108-127): walk
the fetched events in order; an event whose id is already in `seen_events` is
skipped; otherwise its id is appended to `seen_events` and the event is
classified; a terminal classification returns immediately, anything else
continues with the next event.  Returns the final `seen_events` list and the
executed `return`, if any. -/
def processEvents : List StackEvent → List String → List String × Option LoopExit
  | [], seen => (seen, none)
  | e :: rest, seen =>
    if seen.contains e.event_id then
      processEvents rest seen
    else
      let seen2 := seen ++ [e.event_id]
      match classifyEvent e with
      | EventSignal.stackCreateComplete => (seen2, some LoopExit.succeeded)
      | EventSignal.rollbackComplete => (seen2, some LoopExit.failed)
      | EventSignal.rollbackFailed => (seen2, some LoopExit.failed)
      | _ => processEvents rest seen2

/-- Which exit of `wait_to_complete` produced the result: `return True` at the
stack-sentinel branch (line 113), `return False` at a rollback branch
(lines 122/125), or `return False` after the `while` condition failed
(line 129, the timeout). -/
inductive Outcome where
  | succeeded
  | failed
  | timedOut
deriving DecidableEq

/-- The boolean value each outcome's `return` statement yields in the
source. -/
def Outcome.toBool : Outcome → Bool
  | Outcome.succeeded => true
  | Outcome.failed => false
  | Outcome.timedOut => false

/-- `boto.exception.BotoServerError`, restricted to the `message` attribute
read by `create_stack`'s handler. -/
structure BotoServerError where
  message : String
deriving DecidableEq

/-- The provider connection (`self.conn`), restricted to the two calls the
embedded code performs.  `describe_stack_events` is additionally indexed by
elapsed time, modelling that the provider's event stream evolves while the
loop sleeps.  An `Except.error` result models the call raising
`BotoServerError`. -/
structure Provider where
  create_stack : String → String → List (String × String) → Except BotoServerError Unit
  describe_stack_events : String → Nat → Except BotoServerError (List StackEvent)

/-- The `while` loop of `wait_to_complete` (source lines 107-129).  `elapsed`
is the time since `start`; the condition `time.time() < start + timeout` is
`elapsed < timeout`; `time.sleep(10)` advances `elapsed` by 10.  The second
component of the result counts the `describe_stack_events` calls performed.
A `BotoServerError` raised by the fetch propagates (`Except.error`) — the
loop has no handler.  The recursion is driven by explicit fuel; callers pass
`timeout + 1`, which can never be exhausted because every iteration consumes
one fuel unit and advances `elapsed` by 10, so at most
`timeout / 10 + 1 ≤ timeout + 1` iterations run. -/
def waitLoop (conn : Provider) (stack_name : String) (timeout : Nat) :
    Nat → Nat → List String → Except BotoServerError Outcome × Nat
  | 0, _, _ => (Except.ok Outcome.timedOut, 0)
  | fuel + 1, elapsed, seen =>
    if elapsed < timeout then
      match conn.describe_stack_events stack_name elapsed with
      | Except.error e => (Except.error e, 1)
      | Except.ok events =>
        match processEvents events seen with
        | (_, some LoopExit.succeeded) => (Except.ok Outcome.succeeded, 1)
        | (_, some LoopExit.failed) => (Except.ok Outcome.failed, 1)
        | (seen2, none) =>
          let r := waitLoop conn stack_name timeout fuel (elapsed + 10) seen2
          (r.1, r.2 + 1)
    else
      (Except.ok Outcome.timedOut, 0)

/-- `CloudFormation.wait_to_complete(stack_name, timeout=600)` (source
lines 103-129): initialise `seen_events = []`, note the start time, and run
the polling loop. -/
def wait_to_complete (conn : Provider) (stack_name : String) (timeout : Nat) :
    Except BotoServerError Outcome × Nat :=
  waitLoop conn stack_name timeout (timeout + 1) 0 []

/-- Parsed JSON document.  Its structure is opaque to this system (passed
through verbatim), so it is modelled by its serialized form. -/
abbrev Document := String

/-- `json.dumps` on the opaque document carrier: the identity. -/
def json_dumps (d : Document) : String := d

/-- `CloudFormationTemplate`, restricted to the fields `create_stack`
reads. -/
structure CloudFormationTemplate where
  url : String
  body : Document

/-- Observable outcome of one `CloudFormation.create_stack` call.
`retval` is the value the Python function returns to its caller: the source
function has no `return` statement on any path (the call
`self.wait_to_complete(stack_name)` on line 98 discards the result, and the
`except` handler only logs), so a Python caller always receives `None`,
modelled as `none`.  `waitEntered` records whether `wait_to_complete` was
called, `fetchCount` how many `describe_stack_events` calls were made,
`waitOutcome` the loop's outcome when it returned normally, and
`loggedError` the `(stack_name, e.message)` pair passed to `logger.error` by
the `BotoServerError` handler (lines 99-101), if it ran. -/
structure CreateResult where
  retval : Option Bool
  waitEntered : Bool
  fetchCount : Nat
  waitOutcome : Option Outcome
  loggedError : Option (String × String)
deriving DecidableEq

/-- `CloudFormation.create_stack(stack_name, template, parameters)` (source
lines 89-101): submit the create request; on acceptance run
`wait_to_complete` with the default 600 timeout; a `BotoServerError` raised
anywhere inside the `try` block — by the submission or by an event fetch
inside `wait_to_complete` — is caught by the single handler, which logs the
stack name and the message.  No path returns a value. -/
def create_stack (conn : Provider) (stack_name : String)
    (template : CloudFormationTemplate) (parameters : List (String × String)) :
    CreateResult :=
  match conn.create_stack stack_name (json_dumps template.body) parameters with
  | Except.error e =>
    { retval := none, waitEntered := false, fetchCount := 0, waitOutcome := none,
      loggedError := some (stack_name, e.message) }
  | Except.ok _ =>
    match wait_to_complete conn stack_name 600 with
    | (Except.error e, n) =>
      { retval := none, waitEntered := true, fetchCount := n, waitOutcome := none,
        loggedError := some (stack_name, e.message) }
    | (Except.ok o, n) =>
      { retval := none, waitEntered := true, fetchCount := n, waitOutcome := some o,
        loggedError := none }

/-! Template loading (`CloudFormationTemplate._load_template` and helpers). -/

/-- The `strerror` attribute of an `IOError`; `IOError` (an
`EnvironmentError`) does have this attribute. -/
structure IOErrorInfo where
  strerror : String
deriving DecidableEq

/-- Message of the `AttributeError` raised when `e.strerror` is evaluated on
a `ValueError` (which has no such attribute). -/
def valueErrorStrerrorMsg : String := "ValueError object has no attribute strerror"

/-- Exceptions a template load can propagate.  `templateParseError` is the
error the specification's taxonomy expects (a parse error carrying the
original locator); it exists in this type only so that its absence from every
code path can be stated — no branch of the embedded code produces it. -/
inductive LoadError where
  | notImplementedError
  | attributeError (msg : String)
  | ioError (strerror : String)
  | templateParseError (locator : String)
deriving DecidableEq

/-- Result of a template load: the value returned or exception raised, plus
the list of filesystem paths the load attempted to open. -/
structure LoadResult where
  result : Except LoadError Document
  fsReads : List String

/-- `os.path.isabs` on POSIX: the path starts with a slash. -/
def os_path_isabs (p : String) : Bool := pyStartsWith p "/"

/-- `os.path.join(d, p)` for a relative `p` and a directory `d` without a
trailing slash. -/
def os_path_join (d p : String) : String := d ++ "/" ++ p

/-- Python truthiness of `self.config_dir`: `None` and the empty string are
falsy. -/
def pyTruthy : Option String → Bool
  | none => false
  | some s => !(s == "")

/-- The path actually opened by `_fs_get_template` (source lines 37-38): a
relative url with a truthy `config_dir` is joined onto it. -/
def resolve_path (config_dir : Option String) (url : String) : String :=
  if !(os_path_isabs url) && pyTruthy config_dir then
    os_path_join (config_dir.getD "") url
  else
    url

/-- `CloudFormationTemplate._fs_get_template` (source lines 36-49).
`fsread` models `open(url).read()`; `jsonloads` models `json.loads`.
On a `ValueError` from `json.loads`, the handler (lines 43-46) first builds
its log message with `"...".format(url, e.strerror)` — but `ValueError` has
no `strerror` attribute, so this formatting raises `AttributeError` before
either the log call or the intended bare `raise` executes; the
`AttributeError` is what propagates.  On an `IOError` from `open`, `strerror`
exists, the failure is logged with the resolved path, and the `IOError` is
re-raised. -/
def fs_get_template (fsread : String → Except IOErrorInfo String)
    (jsonloads : String → Except String Document)
    (config_dir : Option String) (url : String) : LoadResult :=
  let url2 := resolve_path config_dir url
  match fsread url2 with
  | Except.error e =>
    { result := Except.error (LoadError.ioError e.strerror), fsReads := [url2] }
  | Except.ok content =>
    match jsonloads content with
    | Except.error _ =>
      { result := Except.error (LoadError.attributeError valueErrorStrerrorMsg),
        fsReads := [url2] }
    | Except.ok doc =>
      { result := Except.ok doc, fsReads := [url2] }

/-- `CloudFormationTemplate._s3_get_template` (source lines 51-52): raises
`NotImplementedError` unconditionally; no filesystem access. -/
def s3_get_template : LoadResult :=
  { result := Except.error LoadError.notImplementedError, fsReads := [] }

/-- `CloudFormationTemplate._load_template` (source lines 29-34): dispatch on
the locator scheme — `url.lower().startswith("s3://")` selects the object
storage path, anything else the filesystem path. -/
def load_template (fsread : String → Except IOErrorInfo String)
    (jsonloads : String → Except String Document)
    (config_dir : Option String) (url : String) : LoadResult :=
  if pyStartsWith (pyLower url) "s3://" then
    s3_get_template
  else
    fs_get_template fsread jsonloads config_dir url

/-- Modelled from the spec: the event classifier as section 4.4 of the
specification words it, identical to `classifyEvent` except that the
stack-sentinel test is value equality (`resource_type == STACK_SENTINEL`)
instead of the object-identity test (`is`) the code performs.  Defined only
to exhibit where code and specification diverge. -/
def classifyEventPerSpec (e : StackEvent) : EventSignal :=
  if e.resource_type.val == stackSentinelLiteral.val
      && pyEndsWith e.resource_status "CREATE_COMPLETE" then
    EventSignal.stackCreateComplete
  else if pyEndsWith e.resource_status "CREATE_COMPLETE" then
    EventSignal.resourceCreateComplete
  else if pyEndsWith e.resource_status "CREATE_FAILED" then
    EventSignal.resourceCreateFailed
  else if pyEndsWith e.resource_status "ROLLBACK_IN_PROGRESS" then
    EventSignal.rollbackInProgress
  else if pyEndsWith e.resource_status "ROLLBACK_COMPLETE" then
    EventSignal.rollbackComplete
  else if pyEndsWith e.resource_status "ROLLBACK_FAILED" then
    EventSignal.rollbackFailed
  else
    EventSignal.other

/-! Concrete instances used by the closed theorems and witnesses below. -/

/-- A stack-level `CREATE_COMPLETE` event as the provider delivers it: its
`resource_type` has the sentinel content `"AWS::CloudFormation::Stack"` but,
being parsed out of an API response at runtime, is a fresh string object —
identity tag 1, distinct from the module literal's tag 0. -/
def stackCompleteEvent : StackEvent :=
  { event_id := "Event-1", logical_resource_id := "teststack",
    resource_type := { val := "AWS::CloudFormation::Stack", addr := 1 },
    resource_status := "CREATE_COMPLETE", resource_status_reason := "" }

/-- A provider that accepts the create request and forever reports the single
stack-level `CREATE_COMPLETE` event. -/
def connStackComplete : Provider :=
  { create_stack := fun _ _ _ => Except.ok (),
    describe_stack_events := fun _ _ => Except.ok [stackCompleteEvent] }

/-- A resource-level `CREATE_COMPLETE` event. -/
def resourceDoneEvent : StackEvent :=
  { event_id := "Event-A", logical_resource_id := "vm",
    resource_type := { val := "AWS::EC2::Instance", addr := 2 },
    resource_status := "CREATE_COMPLETE", resource_status_reason := "" }

/-- A `ROLLBACK_COMPLETE` event. -/
def rollbackCompleteEvent : StackEvent :=
  { event_id := "Event-B", logical_resource_id := "teststack",
    resource_type := { val := "AWS::CloudFormation::Stack", addr := 3 },
    resource_status := "ROLLBACK_COMPLETE", resource_status_reason := "rollback done" }

/-- An event later in the stream than the rollback event. -/
def lateEvent : StackEvent :=
  { event_id := "Event-C", logical_resource_id := "vm",
    resource_type := { val := "AWS::EC2::Instance", addr := 5 },
    resource_status := "DELETE_IN_PROGRESS", resource_status_reason := "" }

/-- A resource-level `CREATE_FAILED` event. -/
def createFailedEvent : StackEvent :=
  { event_id := "Event-F", logical_resource_id := "db",
    resource_type := { val := "AWS::RDS::DBInstance", addr := 4 },
    resource_status := "CREATE_FAILED", resource_status_reason := "limit exceeded" }

/-- A provider that accepts the create request and then reports a rollback. -/
def connRollback : Provider :=
  { create_stack := fun _ _ _ => Except.ok (),
    describe_stack_events := fun _ _ => Except.ok [rollbackCompleteEvent] }

/-- A provider that accepts the create request and never delivers any
event. -/
def connQuiet : Provider :=
  { create_stack := fun _ _ _ => Except.ok (),
    describe_stack_events := fun _ _ => Except.ok [] }

/-- A provider that rejects every create request with
`AlreadyExistsException`. -/
def connReject : Provider :=
  { create_stack := fun _ _ _ => Except.error { message := "AlreadyExistsException" },
    describe_stack_events := fun _ _ => Except.ok [] }

/-- A provider that accepts the create request but whose event fetch raises
`BotoServerError` on every call. -/
def connFetchFail : Provider :=
  { create_stack := fun _ _ _ => Except.ok (),
    describe_stack_events := fun _ _ => Except.error { message := "ServiceUnavailable" } }

/-- A concrete template. -/
def tmplApp : CloudFormationTemplate :=
  { url := "templates/app.json", body := "document-body" }

/-- A filesystem whose every file reads as content that is not valid JSON. -/
def fsBad : String → Except IOErrorInfo String :=
  fun _ => Except.ok "not-a-json-document"

/-- A json parser that rejects every input, as `json.loads` does on malformed
content. -/
def jsonRejectAll : String → Except String Document :=
  fun _ => Except.error "No JSON object could be decoded"

/-! Helper lemmas. -/

lemma pyEndsWith_suffix {s a : String} : pyEndsWith s a = true ↔ a.data <:+ s.data := by
  simp [pyEndsWith, List.isSuffixOf_iff_suffix]

lemma pyEndsWith_excl {s a b : String} (h : pyEndsWith s a = true)
    (hnab : ¬ (a.data <:+ b.data)) (hnba : ¬ (b.data <:+ a.data)) :
    pyEndsWith s b = false := by
  rw [Bool.eq_false_iff]
  intro hb
  rcases List.suffix_or_suffix_of_suffix (pyEndsWith_suffix.mp h) (pyEndsWith_suffix.mp hb) with
    h1 | h1
  · exact hnab h1
  · exact hnba h1

lemma classify_rollback_complete {e : StackEvent}
    (h : pyEndsWith e.resource_status "ROLLBACK_COMPLETE" = true) :
    classifyEvent e = EventSignal.rollbackComplete := by
  have h1 : pyEndsWith e.resource_status "CREATE_COMPLETE" = false :=
    pyEndsWith_excl h (by decide) (by decide)
  have h2 : pyEndsWith e.resource_status "CREATE_FAILED" = false :=
    pyEndsWith_excl h (by decide) (by decide)
  have h3 : pyEndsWith e.resource_status "ROLLBACK_IN_PROGRESS" = false :=
    pyEndsWith_excl h (by decide) (by decide)
  simp [classifyEvent, h, h1, h2, h3]

lemma classify_rollback_failed {e : StackEvent}
    (h : pyEndsWith e.resource_status "ROLLBACK_FAILED" = true) :
    classifyEvent e = EventSignal.rollbackFailed := by
  have h1 : pyEndsWith e.resource_status "CREATE_COMPLETE" = false :=
    pyEndsWith_excl h (by decide) (by decide)
  have h2 : pyEndsWith e.resource_status "CREATE_FAILED" = false :=
    pyEndsWith_excl h (by decide) (by decide)
  have h3 : pyEndsWith e.resource_status "ROLLBACK_IN_PROGRESS" = false :=
    pyEndsWith_excl h (by decide) (by decide)
  have h4 : pyEndsWith e.resource_status "ROLLBACK_COMPLETE" = false :=
    pyEndsWith_excl h (by decide) (by decide)
  simp [classifyEvent, h, h1, h2, h3, h4]

lemma classify_create_failed {e : StackEvent}
    (h : pyEndsWith e.resource_status "CREATE_FAILED" = true) :
    classifyEvent e = EventSignal.resourceCreateFailed := by
  have h1 : pyEndsWith e.resource_status "CREATE_COMPLETE" = false :=
    pyEndsWith_excl h (by decide) (by decide)
  simp [classifyEvent, h, h1]

lemma classify_ne_stack {e : StackEvent}
    (hb : pyIs e.resource_type stackSentinelLiteral = false) :
    classifyEvent e ≠ EventSignal.stackCreateComplete := by
  unfold classifyEvent
  rw [hb]
  split_ifs <;> simp_all

lemma processEvents_cons_seen {e : StackEvent} {rest : List StackEvent} {seen : List String}
    (h : e.event_id ∈ seen) :
    processEvents (e :: rest) seen = processEvents rest seen := by
  simp [processEvents, h]

lemma processEvents_cons_nonterminal {e : StackEvent} {rest : List StackEvent}
    {seen : List String} (hid : e.event_id ∉ seen)
    (hnt : isTerminal (classifyEvent e) = false) :
    processEvents (e :: rest) seen = processEvents rest (seen ++ [e.event_id]) := by
  cases hc : classifyEvent e <;> rw [hc] at hnt <;> simp_all [processEvents, isTerminal, hid, hc]

lemma processEvents_cons_failed {e : StackEvent} {rest : List StackEvent} {seen : List String}
    (hid : e.event_id ∉ seen)
    (hc : classifyEvent e = EventSignal.rollbackComplete ∨
        classifyEvent e = EventSignal.rollbackFailed) :
    processEvents (e :: rest) seen = (seen ++ [e.event_id], some LoopExit.failed) := by
  rcases hc with hc | hc <;> simp [processEvents, hid, hc]

lemma processEvents_seen_extend (events : List StackEvent) (seen : List String) :
    ∃ added, (processEvents events seen).1 = seen ++ added := by
  induction events generalizing seen with
  | nil => exact ⟨[], by simp [processEvents]⟩
  | cons e rest ih =>
    by_cases h : e.event_id ∈ seen
    · rw [processEvents_cons_seen h]; exact ih seen
    · by_cases ht : isTerminal (classifyEvent e) = true
      · refine ⟨[e.event_id], ?_⟩
        cases hc : classifyEvent e <;> rw [hc] at ht <;>
          simp_all [processEvents, isTerminal, h]
      · rw [processEvents_cons_nonterminal h (by simpa using ht)]
        obtain ⟨added, ha⟩ := ih (seen ++ [e.event_id])
        exact ⟨[e.event_id] ++ added, by rw [ha, List.append_assoc]⟩

lemma processEvents_no_exit {events : List StackEvent} (seen : List String)
    (h : ∀ e ∈ events, isTerminal (classifyEvent e) = false) :
    ∃ s2, processEvents events seen = (s2, none) := by
  induction events generalizing seen with
  | nil => exact ⟨seen, rfl⟩
  | cons e rest ih =>
    by_cases hs : e.event_id ∈ seen
    · rw [processEvents_cons_seen hs]
      exact ih seen (fun q hq => h q (List.mem_cons_of_mem _ hq))
    · rw [processEvents_cons_nonterminal hs (h e (List.mem_cons_self e rest))]
      exact ih _ (fun q hq => h q (List.mem_cons_of_mem _ hq))

lemma processEvents_first_failed
    (pre post : List StackEvent) (e : StackEvent) (seen : List String)
    (hpre : ∀ p ∈ pre, p.event_id ∈ seen ∨ isTerminal (classifyEvent p) = false)
    (hid : e.event_id ∉ seen)
    (hpreid : ∀ p ∈ pre, p.event_id ≠ e.event_id)
    (hexit : classifyEvent e = EventSignal.rollbackComplete ∨
        classifyEvent e = EventSignal.rollbackFailed) :
    ∃ s2, processEvents (pre ++ e :: post) seen = (s2, some LoopExit.failed) ∧
        processEvents (pre ++ [e]) seen = (s2, some LoopExit.failed) := by
  revert hpre hid hpreid
  induction pre generalizing seen with
  | nil =>
    intro _ hid _
    refine ⟨seen ++ [e.event_id], ?_, ?_⟩ <;>
      rw [List.nil_append, processEvents_cons_failed hid hexit]
  | cons p pre ih =>
    intro hpre hid hpreid
    by_cases hs : p.event_id ∈ seen
    · rw [List.cons_append, List.cons_append,
        processEvents_cons_seen hs, processEvents_cons_seen hs]
      exact ih seen (fun q hq => hpre q (List.mem_cons_of_mem p hq)) hid
        (fun q hq => hpreid q (List.mem_cons_of_mem p hq))
    · have hnt : isTerminal (classifyEvent p) = false := by
        rcases hpre p (List.mem_cons_self p pre) with h | h
        · exact absurd h hs
        · exact h
      rw [List.cons_append, List.cons_append,
        processEvents_cons_nonterminal hs hnt, processEvents_cons_nonterminal hs hnt]
      apply ih (seen ++ [p.event_id])
      · intro q hq
        rcases hpre q (List.mem_cons_of_mem p hq) with h | h
        · exact Or.inl (List.mem_append_left _ h)
        · exact Or.inr h
      · intro hmem
        rcases List.mem_append.mp hmem with h | h
        · exact hid h
        · have he : e.event_id = p.event_id := by simpa using h
          exact hpreid p (List.mem_cons_self p pre) he.symm
      · intro q hq
        exact hpreid q (List.mem_cons_of_mem p hq)

lemma waitLoop_no_terminal (conn : Provider) (stack_name : String)
    (hok : ∀ t, ∃ evs, conn.describe_stack_events stack_name t = Except.ok evs ∧
        ∀ e ∈ evs, isTerminal (classifyEvent e) = false) :
    ∀ n, n ≤ 60 → ∀ fuel seen, n + 1 ≤ fuel →
      waitLoop conn stack_name 600 fuel (600 - 10 * n) seen =
        (Except.ok Outcome.timedOut, n) := by
  intro n
  induction n with
  | zero =>
    intro _ fuel seen hf
    cases fuel with
    | zero => omega
    | succ m => simp [waitLoop]
  | succ n ih =>
    intro hn fuel seen hf
    cases fuel with
    | zero => omega
    | succ m =>
      have hlt : 600 - 10 * (n + 1) < 600 := by omega
      obtain ⟨evs, hevs, hnt⟩ := hok (600 - 10 * (n + 1))
      obtain ⟨s2, hpe⟩ := processEvents_no_exit seen hnt
      have harith : 600 - 10 * (n + 1) + 10 = 600 - 10 * n := by omega
      have ihr := ih (by omega) m s2 (by omega)
      simp only [waitLoop, if_pos hlt, hevs, hpe, harith, ihr]

/-! Claim theorems. -/

/-- Claim C1 (code behaviour at the failing input): `create_stack` discards
the boolean computed by `wait_to_complete`.  With a provider that accepts the
request and then reports a rollback, the completion loop ends in `failed`
(its `return False` at the rollback branch), yet the value `create_stack`
hands back to its caller is `none` — Python `None`, since the function has no
`return` statement — not the loop's boolean. -/
theorem create_discards_wait_result :
    create_stack connRollback "web" tmplApp [("Env", "prod")] =
      { retval := none, waitEntered := true, fetchCount := 1,
        waitOutcome := some Outcome.failed, loggedError := none } := by
  rfl

/-- Claim C2 (code behaviour): the stack-sentinel success branch compares
`resource_type` with Python `is` against a string literal, so it can never
fire for an event whose `resource_type` is not the very literal object —
which is every provider-delivered event.  A stack-level `CREATE_COMPLETE`
event with sentinel-valued but runtime-allocated `resource_type` is
classified as an informational resource completion; the classifier the
specification describes (value equality) would classify it as the
authoritative success signal; and the full wait loop never succeeds on such
a stream — it times out after 60 polls. -/
theorem sentinel_identity_check_never_fires :
    (∀ e : StackEvent, e.resource_type.addr ≠ stackSentinelLiteral.addr →
        classifyEvent e ≠ EventSignal.stackCreateComplete) ∧
    classifyEvent stackCompleteEvent = EventSignal.resourceCreateComplete ∧
    classifyEventPerSpec stackCompleteEvent = EventSignal.stackCreateComplete ∧
    wait_to_complete connStackComplete "teststack" 600 =
      (Except.ok Outcome.timedOut, 60) := by
  refine ⟨?_, by decide, by decide, by rfl⟩
  intro e hne
  apply classify_ne_stack
  simpa [pyIs] using hne

/-- Witness for C2: the identity check fails on the concrete
provider-delivered stack `CREATE_COMPLETE` event. -/
theorem sentinel_identity_check_never_fires_witness :
    classifyEvent stackCompleteEvent ≠ EventSignal.stackCreateComplete :=
  sentinel_identity_check_never_fires.1 stackCompleteEvent (by decide)

/-- Claim C3 counterexample: loading a locator that resolves to malformed
content does not raise a `TemplateParseError` referencing the original
locator — the error that propagates is the `AttributeError` produced when the
`ValueError` handler evaluates `e.strerror`. -/
theorem template_parse_error_counterexample :
    (load_template fsBad jsonRejectAll none "templates/app.json").result =
      Except.error (LoadError.attributeError valueErrorStrerrorMsg) ∧
    (load_template fsBad jsonRejectAll none "templates/app.json").result ≠
      Except.error (LoadError.templateParseError "templates/app.json") := by
  refine ⟨rfl, ?_⟩
  intro h
  simp only [show (load_template fsBad jsonRejectAll none "templates/app.json").result =
      Except.error (LoadError.attributeError valueErrorStrerrorMsg) from rfl] at h
  simp at h

/-- Claim C3 (amended): for every locator resolving to syntactically invalid
content, the load fails, but with the handler's own `AttributeError` (from
evaluating `e.strerror` on a `ValueError`), not with a parse error carrying
the locator; the only filesystem access is the one read of the resolved
path. -/
theorem malformed_template_raises_attribute_error
    (fsread : String → Except IOErrorInfo String)
    (jsonloads : String → Except String Document)
    (config_dir : Option String) (url content emsg : String)
    (hs3 : pyStartsWith (pyLower url) "s3://" = false)
    (hread : fsread (resolve_path config_dir url) = Except.ok content)
    (hparse : jsonloads content = Except.error emsg) :
    load_template fsread jsonloads config_dir url =
      { result := Except.error (LoadError.attributeError valueErrorStrerrorMsg),
        fsReads := [resolve_path config_dir url] } := by
  simp [load_template, hs3, fs_get_template, hread, hparse]

/-- Witness for the amended C3 at a concrete malformed document. -/
theorem malformed_template_raises_attribute_error_witness :
    load_template fsBad jsonRejectAll none "templates/app.json" =
      { result := Except.error (LoadError.attributeError valueErrorStrerrorMsg),
        fsReads := [resolve_path none "templates/app.json"] } :=
  malformed_template_raises_attribute_error fsBad jsonRejectAll none
    "templates/app.json" "not-a-json-document" "No JSON object could be decoded"
    (by decide) rfl rfl

/-- Claim C4: the first unseen event whose status ends with
`ROLLBACK_COMPLETE` or `ROLLBACK_FAILED` — reached after earlier events that
are already seen or classify as non-terminal — makes the event-processing
pass exit with `failed`; events after it in the stream are never examined;
and at the loop level the wait returns the rollback failure after that single
fetch. -/
theorem rollback_event_fails_loop
    (pre post : List StackEvent) (e : StackEvent) (seen : List String)
    (hpre : ∀ p ∈ pre, p.event_id ∈ seen ∨ isTerminal (classifyEvent p) = false)
    (hid : e.event_id ∉ seen)
    (hpreid : ∀ p ∈ pre, p.event_id ≠ e.event_id)
    (hstatus : pyEndsWith e.resource_status "ROLLBACK_COMPLETE" = true ∨
        pyEndsWith e.resource_status "ROLLBACK_FAILED" = true) :
    (processEvents (pre ++ e :: post) seen).2 = some LoopExit.failed ∧
    processEvents (pre ++ e :: post) seen = processEvents (pre ++ [e]) seen ∧
    (∀ (conn : Provider) (stack_name : String) (timeout : Nat), 0 < timeout →
      seen = [] →
      conn.describe_stack_events stack_name 0 = Except.ok (pre ++ e :: post) →
      wait_to_complete conn stack_name timeout = (Except.ok Outcome.failed, 1)) := by
  have hterm : classifyEvent e = EventSignal.rollbackComplete ∨
      classifyEvent e = EventSignal.rollbackFailed := by
    rcases hstatus with h | h
    · exact Or.inl (classify_rollback_complete h)
    · exact Or.inr (classify_rollback_failed h)
  obtain ⟨s2, h1, h2⟩ := processEvents_first_failed pre post e seen hpre hid hpreid hterm
  refine ⟨by rw [h1], by rw [h1, h2], ?_⟩
  intro conn sn timeout htpos hseen hfetch
  subst hseen
  simp only [wait_to_complete, waitLoop, if_pos htpos, hfetch, h1]

/-- Witness for C4 on a concrete stream: a resource completion, then the
rollback event, then a later event that is ignored. -/
theorem rollback_event_fails_loop_witness :
    (processEvents ([resourceDoneEvent] ++ rollbackCompleteEvent :: [lateEvent]) []).2 =
      some LoopExit.failed ∧
    processEvents ([resourceDoneEvent] ++ rollbackCompleteEvent :: [lateEvent]) [] =
      processEvents ([resourceDoneEvent] ++ [rollbackCompleteEvent]) [] :=
  ⟨(rollback_event_fails_loop [resourceDoneEvent] [lateEvent] rollbackCompleteEvent []
      (by decide) (by decide) (by decide) (by decide)).1,
   (rollback_event_fails_loop [resourceDoneEvent] [lateEvent] rollbackCompleteEvent []
      (by decide) (by decide) (by decide) (by decide)).2.1⟩

/-- Claim C5: event processing is idempotent keyed by event id — an event
whose id is already in `seen_events` is skipped without any state-affecting
evaluation; the `seen_events` list only grows (the previous list is always a
prefix of the new one); and every `wait_to_complete` invocation starts its
own loop from a fresh empty `seen_events` list. -/
theorem seen_events_dedup_and_local :
    (∀ (e : StackEvent) (rest : List StackEvent) (seen : List String),
        e.event_id ∈ seen →
        processEvents (e :: rest) seen = processEvents rest seen) ∧
    (∀ (events : List StackEvent) (seen : List String),
        ∃ added, (processEvents events seen).1 = seen ++ added) ∧
    (∀ (conn : Provider) (stack_name : String) (timeout : Nat),
        wait_to_complete conn stack_name timeout =
          waitLoop conn stack_name timeout (timeout + 1) 0 []) :=
  ⟨fun _ _ _ h => processEvents_cons_seen h,
   fun events seen => processEvents_seen_extend events seen,
   fun _ _ _ => rfl⟩

/-- Witness for C5: redelivering the already-seen event id `"Event-1"` leaves
the processing pass exactly where it would be without the redelivery. -/
theorem seen_events_dedup_and_local_witness :
    processEvents [stackCompleteEvent] ["Event-1"] = processEvents [] ["Event-1"] :=
  seen_events_dedup_and_local.1 stackCompleteEvent [] ["Event-1"] (by decide)

/-- Claim C6: if every fetch succeeds and never delivers a terminally
classified event, the loop with timeout 600 and poll interval 10 terminates
by timeout: it performs exactly 60 polls (elapsed times 0, 10, ..., 590) and
returns the timed-out outcome — the `return False` after the `while`
condition fails at elapsed 600. -/
theorem no_terminal_events_times_out (conn : Provider) (stack_name : String)
    (hok : ∀ t, ∃ evs, conn.describe_stack_events stack_name t = Except.ok evs ∧
        ∀ e ∈ evs, isTerminal (classifyEvent e) = false) :
    wait_to_complete conn stack_name 600 = (Except.ok Outcome.timedOut, 60) := by
  have h := waitLoop_no_terminal conn stack_name hok 60 (by norm_num) 601 [] (by norm_num)
  norm_num at h
  exact h

/-- Witness for C6: a provider that never delivers any event times out after
60 polls. -/
theorem no_terminal_events_times_out_witness :
    wait_to_complete connQuiet "app" 600 = (Except.ok Outcome.timedOut, 60) :=
  no_terminal_events_times_out connQuiet "app"
    (fun _ => ⟨[], rfl, fun e he => absurd he (List.not_mem_nil e)⟩)

/-- Claim C7 (code behaviour at the failing input): when the provider rejects
the create request, `create_stack` catches the `BotoServerError`, logs the
stack name with the provider's message, performs no event fetch and never
enters `wait_to_complete` — but it returns `None` (`retval = none`), not an
explicit failure boolean, because the function has no `return` statement. -/
theorem rejected_create_no_polling :
    create_stack connReject "web" tmplApp [("Env", "prod")] =
      { retval := none, waitEntered := false, fetchCount := 0,
        waitOutcome := none, loggedError := some ("web", "AlreadyExistsException") } := by
  rfl

/-- Claim C8: a locator whose scheme is object storage — `s3://`,
case-insensitively via `url.lower().startswith("s3://")` — makes the load
fail with the `NotImplementedError` of `_s3_get_template` (the
specification's `UnsupportedLocatorError`) and no filesystem path is ever
opened. -/
theorem s3_locator_fails_fast
    (fsread : String → Except IOErrorInfo String)
    (jsonloads : String → Except String Document)
    (config_dir : Option String) (url : String)
    (h : pyStartsWith (pyLower url) "s3://" = true) :
    load_template fsread jsonloads config_dir url =
      { result := Except.error LoadError.notImplementedError, fsReads := [] } := by
  simp [load_template, h, s3_get_template]

/-- Witness for C8 at a mixed-case locator. -/
theorem s3_locator_fails_fast_witness :
    load_template fsBad jsonRejectAll none "S3://bucket/stack.json" =
      { result := Except.error LoadError.notImplementedError, fsReads := [] } :=
  s3_locator_fails_fast fsBad jsonRejectAll none "S3://bucket/stack.json" (by decide)

/-- Claim C9: an event whose status ends with `CREATE_FAILED` is classified
as the informational resource-failure signal, which is not terminal, and
processing it merely records its id and continues with the remaining
events — it never by itself ends the pass. -/
theorem create_failed_keeps_waiting (e : StackEvent)
    (h : pyEndsWith e.resource_status "CREATE_FAILED" = true) :
    classifyEvent e = EventSignal.resourceCreateFailed ∧
    isTerminal (classifyEvent e) = false ∧
    (∀ (rest : List StackEvent) (seen : List String), e.event_id ∉ seen →
      processEvents (e :: rest) seen = processEvents rest (seen ++ [e.event_id])) := by
  have hc := classify_create_failed h
  exact ⟨hc, by rw [hc]; rfl, fun rest seen hid =>
    processEvents_cons_nonterminal hid (by rw [hc]; rfl)⟩

/-- Witness for C9 at a concrete `CREATE_FAILED` event. -/
theorem create_failed_keeps_waiting_witness :
    processEvents [createFailedEvent] [] =
      processEvents [] ([] ++ [createFailedEvent.event_id]) :=
  (create_failed_keeps_waiting createFailedEvent (by decide)).2.2 [] []
    (List.not_mem_nil _)

/-- Claim C10: a `BotoServerError` raised inside `create_stack`'s `try` block
— whether by the create-stack submission itself or by an event fetch during
the polling loop (which propagates out of `wait_to_complete` into the same
handler) — is caught and logged, and `create_stack` returns normally. -/
theorem boto_errors_suppressed :
    (∀ (conn : Provider) (stack_name : String) (template : CloudFormationTemplate)
        (parameters : List (String × String)) (e : BotoServerError),
        conn.create_stack stack_name (json_dumps template.body) parameters =
          Except.error e →
        create_stack conn stack_name template parameters =
          { retval := none, waitEntered := false, fetchCount := 0, waitOutcome := none,
            loggedError := some (stack_name, e.message) }) ∧
    (∀ (conn : Provider) (stack_name : String) (template : CloudFormationTemplate)
        (parameters : List (String × String)) (e : BotoServerError) (n : Nat),
        conn.create_stack stack_name (json_dumps template.body) parameters =
          Except.ok () →
        wait_to_complete conn stack_name 600 = (Except.error e, n) →
        create_stack conn stack_name template parameters =
          { retval := none, waitEntered := true, fetchCount := n, waitOutcome := none,
            loggedError := some (stack_name, e.message) }) := by
  constructor
  · intro conn sn t ps e h
    simp [create_stack, h]
  · intro conn sn t ps e n h hw
    simp [create_stack, h, hw]

/-- Witness for C10: a provider whose event fetch raises mid-poll; the error
is suppressed and logged, and `create_stack` returns normally. -/
theorem boto_errors_suppressed_witness :
    create_stack connFetchFail "web" tmplApp [("Env", "prod")] =
      { retval := none, waitEntered := true, fetchCount := 1, waitOutcome := none,
        loggedError := some ("web", "ServiceUnavailable") } :=
  boto_errors_suppressed.2 connFetchFail "web" tmplApp [("Env", "prod")]
    { message := "ServiceUnavailable" } 1 rfl rfl

end CfnSphere
